import Mathlib

/-!
# mbdr: version dispatch of the binary container parser and the mouse NMJ model

Shallow embedding of `parser/parser.go` (`parseAPITag`, `ReadHeader`, `Read`) and of the
package-level configuration of `cmd/mouseAnalyzer/mouseAnalyzer.go` (`model`,
`fusionModel`, `init`).

Go strings are byte sequences, errors are values, an `io.Reader` is the sequence of bytes
it will still deliver together with the error it reports once they are used up.  The
version-specific decoders (`parseAPI1`, `parseAPI2`) and the constants `libmbd.API1`,
`libmbd.API2` live in other packages; they are fields of `Env`, so every statement below
holds for whatever they are.
-/

namespace Mbdr

/-! ## Go values -/

/-- A byte. -/
abbrev Byte := UInt8

/-- A Go `string`: an immutable sequence of bytes (not necessarily valid UTF-8). -/
abbrev GoString := List Byte

/-- The bytes of an ASCII string literal. -/
def ascii (s : String) : GoString :=
  s.toList.map (fun c => UInt8.ofNat c.toNat)

/-- A Go `error` value.  `EOF` and `ErrUnexpectedEOF` are the two sentinels of package
`io`; `Errorf msg` is the value built by `fmt.Errorf` with the formatted message `msg`;
`other n` stands for any further error value (from `os`, `bzip2` or a decoder). -/
inductive GoError where
  | EOF
  | ErrUnexpectedEOF
  | Errorf (msg : GoString)
  | other (id : Nat)
deriving DecidableEq, Repr

/-- An `io.Reader` over the decompressed stream: `data` are the bytes it still delivers,
`term` is the error its `Read` reports once `data` is used up (`io.EOF` at a clean end of
stream, anything else for a read or decompression failure). -/
structure Reader where
  data : List Byte
  term : GoError
deriving DecidableEq, Repr

/-- What `io.ReadFull` hands back: the buffer, the number of bytes copied, the error
(`none` is `nil`) and the reader after the call. -/
structure ReadFullResult where
  buf : List Byte
  n : Nat
  err : Option GoError
  rest : Reader
deriving DecidableEq, Repr

/-- `io.ReadFull(r, buf)` for a zeroed buffer of length `len` (standard library, package
`io`): it reads exactly `len` bytes; when fewer are available it returns the count and an
error, which is `EOF` only if no byte was read, `ErrUnexpectedEOF` if the stream ended
after some but not all bytes, and the reader's own error otherwise. -/
def ReadFull (r : Reader) (len : Nat) : ReadFullResult :=
  if len ≤ r.data.length then
    { buf := r.data.take len, n := len, err := none,
      rest := { r with data := r.data.drop len } }
  else
    { buf := r.data ++ List.replicate (len - r.data.length) 0,
      n := r.data.length,
      err := some (if 0 < r.data.length ∧ r.term = GoError.EOF
                   then GoError.ErrUnexpectedEOF else r.term),
      rest := { r with data := [] } }

/-! ## parser/parser.go -/

/-- Source: `const apiTagLength = len("MCELL_BINARY_API_2")`. -/
def apiTagLength : Nat := (ascii "MCELL_BINARY_API_2").length

/-- Result of `parseAPITag`: the returned string, the returned error and the reader after
the call. -/
structure TagResult where
  tag : GoString
  err : Option GoError
  rest : Reader
deriving DecidableEq, Repr

/-- Source: `parseAPITag`.
```go
receivedAPITag := make([]byte, apiTagLength)
if n, err := io.ReadFull(r, receivedAPITag); err != nil || n == 0 {
    return "", err
}
return string(receivedAPITag), nil
``` -/
def parseAPITag (r : Reader) : TagResult :=
  let res := ReadFull r apiTagLength
  if res.err ≠ none ∨ res.n = 0 then
    { tag := [], err := res.err, rest := res.rest }
  else
    { tag := res.buf, err := none, rest := res.rest }

/-- Modelled from the spec: the struct `libmbd.MCellData` is declared in package `libmbd`.
The parser sets its field `API`; the doc comment of `ReadHeader` names its field `buffer`,
which holds the data blocks and is `nil` (`none`) as long as no data is parsed; `metadata`
stands for the remaining header fields (empty in the zero value). -/
structure MCellData where
  API : GoString
  metadata : List Nat
  buffer : Option (List Byte)
deriving DecidableEq, Repr

/-- The zero value `*new(libmbd.MCellData)`. -/
def MCellData.new : MCellData :=
  { API := [], metadata := [], buffer := none }

/-- What a version-specific routine returns, `(*libmbd.MCellData, error)`, together with
the reader after the call. -/
structure DecodeResult where
  data : Option MCellData
  err : Option GoError
  rest : Reader
deriving DecidableEq, Repr

/-- A version-specific routine `func(r io.Reader, data *libmbd.MCellData)`. -/
abbrev Decoder := Reader → Option MCellData → DecodeResult

/-- The four version-specific routines the parser can call. -/
inductive Call where
  | API1Header
  | API1Data
  | API2Header
  | API2Data
deriving DecidableEq, Repr

/-- Everything `parser.go` takes from outside: the version constants of `libmbd`, the
routines of `parseAPI1` and `parseAPI2`, and the file system seen through
`bzip2.NewReader(os.Open(filename))`, which is either the error of `os.Open` or the
reader over the decompressed stream. -/
structure Env where
  API1 : GoString
  API2 : GoString
  API1Header : Decoder
  API1Data : Decoder
  API2Header : Decoder
  API2Data : Decoder
  osOpen : GoString → Except GoError Reader

/-- The return values of `ReadHeader` and `Read`, `(*libmbd.MCellData, error)`, with the
reader at the moment of return (`none` when the file was never opened) and the
version-specific routines that were called, in call order. -/
structure Outcome where
  data : Option MCellData
  err : Option GoError
  file : Option Reader
  calls : List Call
deriving DecidableEq, Repr

/-- Message of `fmt.Errorf("unknown mcell binary api version %s", apiTag)`. -/
def unknownVersionMsg (apiTag : GoString) : GoString :=
  ascii "unknown mcell binary api version " ++ apiTag

/-- Message of
`fmt.Errorf("Failed to parse API tag of file %s  - file empty??", filename)`. -/
def failedTagMsg (filename : GoString) : GoString :=
  ascii "Failed to parse API tag of file " ++ filename ++ ascii "  - file empty??"

/-- Source: `ReadHeader`. -/
def ReadHeader (env : Env) (filename : GoString) : Outcome :=
  match env.osOpen filename with
  | .error err => { data := none, err := some err, file := none, calls := [] }
  | .ok file =>
    let t := parseAPITag file
    match t.err with
    | some err => { data := none, err := some err, file := some t.rest, calls := [] }
    | none =>
      let apiTag := t.tag
      let data : MCellData := { MCellData.new with API := apiTag }
      if apiTag = env.API1 then
        let h := env.API1Header t.rest (some data)
        match h.err with
        | some err =>
          { data := none, err := some err, file := some h.rest, calls := [Call.API1Header] }
        | none =>
          { data := h.data, err := none, file := some h.rest, calls := [Call.API1Header] }
      else if apiTag = env.API2 then
        let h := env.API2Header t.rest (some data)
        match h.err with
        | some err =>
          { data := none, err := some err, file := some h.rest, calls := [Call.API2Header] }
        | none =>
          { data := h.data, err := none, file := some h.rest, calls := [Call.API2Header] }
      else
        { data := none, err := some (GoError.Errorf (unknownVersionMsg apiTag)),
          file := some t.rest, calls := [] }

/-- Source: `Read`. -/
def Read (env : Env) (filename : GoString) : Outcome :=
  match env.osOpen filename with
  | .error err => { data := none, err := some err, file := none, calls := [] }
  | .ok file =>
    let t := parseAPITag file
    match t.err with
    | some _ =>
      { data := none, err := some (GoError.Errorf (failedTagMsg filename)),
        file := some t.rest, calls := [] }
    | none =>
      let apiTag := t.tag
      let data : MCellData := { MCellData.new with API := apiTag }
      if apiTag = env.API1 then
        let h := env.API1Header t.rest (some data)
        match h.err with
        | some err =>
          { data := none, err := some err, file := some h.rest, calls := [Call.API1Header] }
        | none =>
          let d := env.API1Data h.rest h.data
          match d.err with
          | some err =>
            { data := none, err := some err, file := some d.rest,
              calls := [Call.API1Header, Call.API1Data] }
          | none =>
            { data := d.data, err := none, file := some d.rest,
              calls := [Call.API1Header, Call.API1Data] }
      else if apiTag = env.API2 then
        let h := env.API2Header t.rest (some data)
        match h.err with
        | some err =>
          { data := none, err := some err, file := some h.rest, calls := [Call.API2Header] }
        | none =>
          let d := env.API2Data h.rest h.data
          match d.err with
          | some err =>
            { data := none, err := some err, file := some d.rest,
              calls := [Call.API2Header, Call.API2Data] }
          | none =>
            { data := d.data, err := none, file := some d.rest,
              calls := [Call.API2Header, Call.API2Data] }
      else
        { data := none, err := some (GoError.Errorf (unknownVersionMsg apiTag)),
          file := some t.rest, calls := [] }

/-! ### Vocabulary for the statements about the parser -/

/-- The two supported versions, one per `case` of the `switch apiTag`. -/
inductive Version where
  | V1
  | V2
deriving DecidableEq, Repr

/-- The `case` the `switch apiTag` of `ReadHeader` and `Read` selects: `libmbd.API1`
first, then `libmbd.API2`, else `default` (`none`). -/
def Env.versionOf (env : Env) (apiTag : GoString) : Option Version :=
  if apiTag = env.API1 then some Version.V1
  else if apiTag = env.API2 then some Version.V2
  else none

/-- The `Header` routine of a version. -/
def Env.headerOf (env : Env) : Version → Decoder
  | Version.V1 => env.API1Header
  | Version.V2 => env.API2Header

/-- The `Data` routine of a version. -/
def Env.dataOf (env : Env) : Version → Decoder
  | Version.V1 => env.API1Data
  | Version.V2 => env.API2Data

/-- The call of a version's `Header` routine. -/
def Version.headerCall : Version → Call
  | Version.V1 => Call.API1Header
  | Version.V2 => Call.API2Header

/-- The call of a version's `Data` routine. -/
def Version.dataCall : Version → Call
  | Version.V1 => Call.API1Data
  | Version.V2 => Call.API2Data

/-- The reader positioned right after the 18 bytes of the tag. -/
def afterTag (r : Reader) : Reader :=
  { data := r.data.drop 18, term := r.term }

/-- A fresh `MCellData` whose only set field is `API`. -/
def freshData (apiTag : GoString) : MCellData :=
  { API := apiTag, metadata := [], buffer := none }

/-- What `ReadHeader` and `Read` make of a routine's return values: the error as it is,
the trace only when the error is `nil`. -/
def DecodeResult.returned (d : DecodeResult) (calls : List Call) : Outcome :=
  { data := if d.err = none then d.data else none, err := d.err, file := some d.rest,
    calls := calls }

/-! ### A concrete environment for evaluating the parser -/

/-- A header routine that reads one byte as the only metadata entry and fails with
`io.EOF` when there is none. -/
def demoHeader : Decoder := fun r data =>
  match r.data with
  | [] => { data := none, err := some GoError.EOF, rest := r }
  | b :: bs =>
    { data := data.map (fun d => { d with metadata := [b.toNat] }), err := none,
      rest := { r with data := bs } }

/-- A data routine that stores the remaining bytes in `buffer` and fails with
`io.ErrUnexpectedEOF` when there are none. -/
def demoData : Decoder := fun r data =>
  match r.data with
  | [] => { data := none, err := some GoError.ErrUnexpectedEOF, rest := r }
  | b :: bs =>
    { data := data.map (fun d => { d with buffer := some (b :: bs) }), err := none,
      rest := { r with data := [] } }

/-- An environment with the tags `MCELL_BINARY_API_1` and `MCELL_BINARY_API_2`, the two
routines above for both versions, and a file system in which every file name opens the
stream `r`. -/
def demoEnv (r : Reader) : Env :=
  { API1 := ascii "MCELL_BINARY_API_1",
    API2 := ascii "MCELL_BINARY_API_2",
    API1Header := demoHeader,
    API1Data := demoData,
    API2Header := demoHeader,
    API2Data := demoData,
    osOpen := fun _ => Except.ok r }

/-! ## cmd/mouseAnalyzer/mouseAnalyzer.go -/

namespace MouseAnalyzer

/-- Modelled from the spec: the struct `rel.CaSensor` is declared in package `releaser`;
a sensor descriptor holds its binding-site indices (`Sites []int`) and a site-type tag
(`SiteType`). -/
structure CaSensor where
  Sites : List Int
  SiteType : Nat
deriving DecidableEq, Repr

/-- The zero value of `rel.CaSensor`, which `make` fills a fresh slice with. -/
def CaSensor.zero : CaSensor :=
  { Sites := [], SiteType := 0 }

/-- Modelled from the spec: the struct `rel.AnalyzerInfo` is declared in package
`releaser`; the analyzer sets `Name` and, through the flag `-T`, `NumThreads`. -/
structure AnalyzerInfo where
  Name : GoString
  NumThreads : Int
deriving DecidableEq, Repr

/-- Modelled from the spec: the struct `rel.SimModel` is declared in package `releaser`;
these are the fields the analyzer sets.  `PulseDuration` keeps the decimal literal
`3e-3` as mantissa and exponent. -/
structure SimModel where
  VesicleIDs : List GoString
  SensorTemplate : GoString
  PulseDuration : Int × Int
  NumPulses : Int
  CaSensors : List CaSensor
deriving DecidableEq, Repr

/-- Modelled from the spec: the struct `rel.FusionModel` is declared in package
`releaser`; these are the fields the analyzer reads or sets. -/
structure FusionModel where
  NumSyt : Int
  NumActiveSyt : Int
  EnergyModel : Bool
  NumActiveSites : Int
  NumY : Int
deriving DecidableEq, Repr

/-- Source: `var info = rel.AnalyzerInfo{Name: "mouseAnalyzer"}`. -/
def info : AnalyzerInfo :=
  { Name := ascii "mouseAnalyzer", NumThreads := 0 }

/-- Source: `var model = rel.SimModel{...}`; `CaSensors` is left at its zero value, the
nil slice. -/
def model : SimModel :=
  { VesicleIDs := [ascii "1_1", ascii "1_2", ascii "2_1", ascii "2_2", ascii "3_1",
      ascii "3_2", ascii "4_1", ascii "4_2", ascii "5_1", ascii "5_2", ascii "6_1",
      ascii "6_2"],
    SensorTemplate := ascii "bound_vesicle_%s_%s_%d.%04d.dat",
    PulseDuration := (3, -3),
    NumPulses := 1,
    CaSensors := [] }

/-- Source: `var fusionModel = rel.FusionModel{NumSyt: 8, NumActiveSyt: 2,
EnergyModel: false}`; the fields not named keep their zero value. -/
def fusionModel : FusionModel :=
  { NumSyt := 8, NumActiveSyt := 2, EnergyModel := false, NumActiveSites := 0, NumY := 0 }

/-- The package-level variables of the analyzer. -/
structure Globals where
  info : AnalyzerInfo
  model : SimModel
  fusionModel : FusionModel
deriving DecidableEq, Repr

/-- The package-level variables as their declarations initialise them, before `init`. -/
def Globals.initial : Globals :=
  { info := MouseAnalyzer.info, model := MouseAnalyzer.model,
    fusionModel := MouseAnalyzer.fusionModel }

/-- Go `make([]rel.CaSensor, n)`: a slice of `n` zero values; a negative length panics
(`none`). -/
def makeCaSensors (n : Int) : Option (List CaSensor) :=
  if n < 0 then none else some (List.replicate n.toNat CaSensor.zero)

/-- Go `s[i] = v`: an index out of range panics (`none`). -/
def assign (s : List CaSensor) (i : Nat) (v : CaSensor) : Option (List CaSensor) :=
  if i < s.length then some (s.set i v) else none

/-- Source: `init`.  `flag.IntVar(p, name, value, usage)` stores the default `value` in
`*p`; the slice of sensors is made with `fusionModel.NumSyt+fusionModel.NumY` entries and
then filled by indexed assignment.  `SytSite` is the constant `rel.SytSite`.  The result
is `none` when a run-time panic occurs. -/
def init (SytSite : Nat) (g : Globals) : Option Globals := do
  let fusionModel := { g.fusionModel with NumActiveSites := 0 }
  let info := { g.info with NumThreads := 1 }
  let s ← makeCaSensors (fusionModel.NumSyt + fusionModel.NumY)
  let s ← assign s 0 { Sites := [8, 9, 29, 30, 31], SiteType := SytSite }
  let s ← assign s 1 { Sites := [7, 32, 33, 34, 35], SiteType := SytSite }
  let s ← assign s 2 { Sites := [3, 6, 36, 37, 38], SiteType := SytSite }
  let s ← assign s 3 { Sites := [17, 39, 40, 41, 42], SiteType := SytSite }
  let s ← assign s 4 { Sites := [15, 16, 43, 44, 45], SiteType := SytSite }
  let s ← assign s 5 { Sites := [14, 46, 47, 48, 49], SiteType := SytSite }
  let s ← assign s 6 { Sites := [4, 12, 24, 50, 51], SiteType := SytSite }
  let s ← assign s 7 { Sites := [10, 25, 26, 27, 28], SiteType := SytSite }
  pure { info := info, model := { g.model with CaSensors := s }, fusionModel := fusionModel }

/-- All site indices of a list of sensors, sensor after sensor. -/
def allSites (s : List CaSensor) : List Int :=
  s.flatMap (fun c => c.Sites)

/-- The identifiers of `nAZ` active zones with `nVes` vesicles each, written `a_b` with
`a` from 1 to `nAZ` and `b` from 1 to `nVes`, in ascending order of `(a, b)`. -/
def vesicleIDsOf (nAZ nVes : Nat) : List GoString :=
  (List.range nAZ).flatMap (fun a =>
    (List.range nVes).map (fun b => ascii (toString (a + 1) ++ "_" ++ toString (b + 1))))

end MouseAnalyzer

/-! ## Reading the tag -/

theorem apiTagLength_eq : apiTagLength = 18 := by decide

theorem parseAPITag_full (r : Reader) (h : 18 ≤ r.data.length) :
    parseAPITag r =
      { tag := r.data.take 18, err := none, rest := afterTag r } := by
  simp [parseAPITag, ReadFull, apiTagLength_eq, h, afterTag]

theorem parseAPITag_short (r : Reader) (h : r.data.length < 18) :
    parseAPITag r =
      { tag := [],
        err := some (if 0 < r.data.length ∧ r.term = GoError.EOF
                     then GoError.ErrUnexpectedEOF else r.term),
        rest := { data := [], term := r.term } } := by
  simp [parseAPITag, ReadFull, apiTagLength_eq, Nat.not_le.mpr h]

theorem parseAPITag_err_iff (r : Reader) :
    (parseAPITag r).err = none ↔ 18 ≤ r.data.length := by
  by_cases h : 18 ≤ r.data.length
  · simp [parseAPITag_full r h, h]
  · simp [parseAPITag_short r (Nat.lt_of_not_le h), h]

/-- C4. `apiTagLength` is 18, the length of the literal `MCELL_BINARY_API_2`; `parseAPITag`
succeeds exactly when the stream still holds at least 18 bytes, and then its tag is the
first 18 bytes of the stream (so never empty), it has consumed exactly these 18 bytes, and
the reader it leaves behind delivers the stream from byte offset 18 on. -/
theorem parseAPITag_spec (r : Reader) :
    apiTagLength = 18 ∧
    apiTagLength = (ascii "MCELL_BINARY_API_2").length ∧
    ((parseAPITag r).err = none ↔ 18 ≤ r.data.length) ∧
    ((parseAPITag r).err = none →
      (parseAPITag r).tag = r.data.take 18 ∧
      (parseAPITag r).tag.length = 18 ∧
      (parseAPITag r).tag ≠ [] ∧
      (parseAPITag r).rest.data = r.data.drop 18 ∧
      (parseAPITag r).rest.term = r.term ∧
      r.data = (parseAPITag r).tag ++ (parseAPITag r).rest.data) ∧
    ((parseAPITag r).err ≠ none → (parseAPITag r).tag = []) := by
  refine ⟨apiTagLength_eq, rfl, parseAPITag_err_iff r, ?_, ?_⟩
  · intro h
    have hlen : 18 ≤ r.data.length := (parseAPITag_err_iff r).mp h
    have hl : (r.data.take 18).length = 18 := by
      rw [List.length_take]; exact Nat.min_eq_left hlen
    rw [parseAPITag_full r hlen]
    refine ⟨rfl, hl, ?_, rfl, rfl, ?_⟩
    · intro hnil
      have hz : (r.data.take 18).length = 0 := congrArg List.length hnil
      omega
    · simp [afterTag]
  · intro h
    have hlen : r.data.length < 18 :=
      Nat.lt_of_not_le (fun hle => h ((parseAPITag_err_iff r).mpr hle))
    rw [parseAPITag_short r hlen]

/-- Witness for C4 on the stream `MCELL_BINARY_API_2` followed by the bytes 1, 2, 3. -/
theorem parseAPITag_spec_witness :
    (parseAPITag ⟨ascii "MCELL_BINARY_API_2" ++ [1, 2, 3], GoError.EOF⟩).tag
        = ascii "MCELL_BINARY_API_2" ∧
    (parseAPITag ⟨ascii "MCELL_BINARY_API_2" ++ [1, 2, 3], GoError.EOF⟩).rest.data
        = [1, 2, 3] := by
  have h := parseAPITag_spec ⟨ascii "MCELL_BINARY_API_2" ++ [1, 2, 3], GoError.EOF⟩
  have h4 := h.2.2.2.1 (by decide)
  exact ⟨h4.1.trans (by decide), h4.2.2.2.1.trans (by decide)⟩

/-! ## The shape of `ReadHeader` and `Read` on each kind of input -/

theorem ReadHeader_open_error (env : Env) (filename : GoString) (e : GoError)
    (hopen : env.osOpen filename = Except.error e) :
    ReadHeader env filename = { data := none, err := some e, file := none, calls := [] } := by
  simp [ReadHeader, hopen]

theorem Read_open_error (env : Env) (filename : GoString) (e : GoError)
    (hopen : env.osOpen filename = Except.error e) :
    Read env filename = { data := none, err := some e, file := none, calls := [] } := by
  simp [Read, hopen]

theorem ReadHeader_short (env : Env) (filename : GoString) (r : Reader)
    (hopen : env.osOpen filename = Except.ok r) (hlen : r.data.length < 18) :
    ReadHeader env filename =
      { data := none,
        err := some (if 0 < r.data.length ∧ r.term = GoError.EOF
                     then GoError.ErrUnexpectedEOF else r.term),
        file := some { data := [], term := r.term }, calls := [] } := by
  simp [ReadHeader, hopen, parseAPITag_short r hlen]

theorem Read_short (env : Env) (filename : GoString) (r : Reader)
    (hopen : env.osOpen filename = Except.ok r) (hlen : r.data.length < 18) :
    Read env filename =
      { data := none, err := some (GoError.Errorf (failedTagMsg filename)),
        file := some { data := [], term := r.term }, calls := [] } := by
  simp [Read, hopen, parseAPITag_short r hlen]

theorem ReadHeader_unknown (env : Env) (filename : GoString) (r : Reader)
    (hopen : env.osOpen filename = Except.ok r) (hlen : 18 ≤ r.data.length)
    (hv : env.versionOf (r.data.take 18) = none) :
    ReadHeader env filename =
      { data := none, err := some (GoError.Errorf (unknownVersionMsg (r.data.take 18))),
        file := some (afterTag r), calls := [] } := by
  unfold Env.versionOf at hv
  by_cases h1 : r.data.take 18 = env.API1
  · rw [if_pos h1] at hv
    cases hv
  · by_cases h2 : r.data.take 18 = env.API2
    · rw [if_neg h1, if_pos h2] at hv
      cases hv
    · simp [ReadHeader, hopen, parseAPITag_full r hlen, h1, h2]

theorem Read_unknown (env : Env) (filename : GoString) (r : Reader)
    (hopen : env.osOpen filename = Except.ok r) (hlen : 18 ≤ r.data.length)
    (hv : env.versionOf (r.data.take 18) = none) :
    Read env filename =
      { data := none, err := some (GoError.Errorf (unknownVersionMsg (r.data.take 18))),
        file := some (afterTag r), calls := [] } := by
  unfold Env.versionOf at hv
  by_cases h1 : r.data.take 18 = env.API1
  · rw [if_pos h1] at hv
    cases hv
  · by_cases h2 : r.data.take 18 = env.API2
    · rw [if_neg h1, if_pos h2] at hv
      cases hv
    · simp [Read, hopen, parseAPITag_full r hlen, h1, h2]

theorem ReadHeader_version (env : Env) (filename : GoString) (r : Reader) (v : Version)
    (hopen : env.osOpen filename = Except.ok r) (hlen : 18 ≤ r.data.length)
    (hv : env.versionOf (r.data.take 18) = some v) :
    ReadHeader env filename =
      (env.headerOf v (afterTag r) (some (freshData (r.data.take 18)))).returned
        [v.headerCall] := by
  unfold Env.versionOf at hv
  by_cases h1 : r.data.take 18 = env.API1
  · rw [if_pos h1] at hv
    cases hv
    simp only [ReadHeader, hopen, parseAPITag_full r hlen, h1, if_true, Env.headerOf,
      Version.headerCall, DecodeResult.returned, freshData, MCellData.new]
    cases hh : (env.API1Header (afterTag r)
      (some { API := env.API1, metadata := [], buffer := none })).err <;> simp
  · by_cases h2 : r.data.take 18 = env.API2
    · rw [if_neg h1, if_pos h2] at hv
      cases hv
      have h1' : ¬ env.API2 = env.API1 := fun h => h1 (h2.trans h)
      simp only [ReadHeader, hopen, parseAPITag_full r hlen, h1', h2, if_true, if_false,
        Env.headerOf, Version.headerCall, DecodeResult.returned, freshData, MCellData.new]
      cases hh : (env.API2Header (afterTag r)
        (some { API := env.API2, metadata := [], buffer := none })).err <;> simp
    · rw [if_neg h1, if_neg h2] at hv
      cases hv

theorem Read_version (env : Env) (filename : GoString) (r : Reader) (v : Version)
    (hopen : env.osOpen filename = Except.ok r) (hlen : 18 ≤ r.data.length)
    (hv : env.versionOf (r.data.take 18) = some v) :
    Read env filename =
      match (env.headerOf v (afterTag r) (some (freshData (r.data.take 18)))).err with
      | some e =>
        { data := none, err := some e,
          file := some (env.headerOf v (afterTag r)
            (some (freshData (r.data.take 18)))).rest,
          calls := [v.headerCall] }
      | none =>
        (env.dataOf v
          (env.headerOf v (afterTag r) (some (freshData (r.data.take 18)))).rest
          (env.headerOf v (afterTag r) (some (freshData (r.data.take 18)))).data).returned
          [v.headerCall, v.dataCall] := by
  unfold Env.versionOf at hv
  by_cases h1 : r.data.take 18 = env.API1
  · rw [if_pos h1] at hv
    cases hv
    simp only [Read, hopen, parseAPITag_full r hlen, h1, if_true, Env.headerOf, Env.dataOf,
      Version.headerCall, Version.dataCall, DecodeResult.returned, freshData, MCellData.new]
    cases hh : (env.API1Header (afterTag r)
      (some { API := env.API1, metadata := [], buffer := none })).err
    · simp only []
      cases hd : (env.API1Data
        (env.API1Header (afterTag r)
          (some { API := env.API1, metadata := [], buffer := none })).rest
        (env.API1Header (afterTag r)
          (some { API := env.API1, metadata := [], buffer := none })).data).err <;> simp
    · simp
  · by_cases h2 : r.data.take 18 = env.API2
    · rw [if_neg h1, if_pos h2] at hv
      cases hv
      have h1' : ¬ env.API2 = env.API1 := fun h => h1 (h2.trans h)
      simp only [Read, hopen, parseAPITag_full r hlen, h1', h2, if_true, if_false,
        Env.headerOf, Env.dataOf, Version.headerCall, Version.dataCall,
        DecodeResult.returned, freshData, MCellData.new]
      cases hh : (env.API2Header (afterTag r)
        (some { API := env.API2, metadata := [], buffer := none })).err
      · simp only []
        cases hd : (env.API2Data
          (env.API2Header (afterTag r)
            (some { API := env.API2, metadata := [], buffer := none })).rest
          (env.API2Header (afterTag r)
            (some { API := env.API2, metadata := [], buffer := none })).data).err <;> simp
      · simp
    · rw [if_neg h1, if_neg h2] at hv
      cases hv

theorem failedTagMsg_ne_unknownVersionMsg (filename apiTag : GoString) :
    failedTagMsg filename ≠ unknownVersionMsg apiTag := by
  have hF : ascii "Failed to parse API tag of file "
      = 70 :: ascii "ailed to parse API tag of file " := by decide
  have hU : ascii "unknown mcell binary api version "
      = 117 :: ascii "nknown mcell binary api version " := by decide
  intro h
  unfold failedTagMsg unknownVersionMsg at h
  rw [hF, hU] at h
  have hh := congrArg List.head? h
  simp only [List.cons_append, List.head?_cons, Option.some.injEq] at hh
  exact absurd hh (by decide)

theorem ReadHeader_short_clean (env : Env) (filename : GoString) (r : Reader)
    (hopen : env.osOpen filename = Except.ok r) (hlen : r.data.length < 18)
    (hclean : r.term = GoError.EOF) :
    ReadHeader env filename =
      { data := none,
        err := some (if r.data = [] then GoError.EOF else GoError.ErrUnexpectedEOF),
        file := some ⟨[], GoError.EOF⟩, calls := [] } := by
  rw [ReadHeader_short env filename r hopen hlen, hclean]
  cases hd : r.data with
  | nil => simp
  | cons b bs => simp

theorem Env.versionOf_eq_none (env : Env) (apiTag : GoString)
    (h1 : apiTag ≠ env.API1) (h2 : apiTag ≠ env.API2) : env.versionOf apiTag = none := by
  unfold Env.versionOf
  rw [if_neg h1, if_neg h2]

/-! ## Unsupported tags -/

/-- C1. When the decompressed stream holds at least 18 bytes and its first 18 bytes are
neither `libmbd.API1` nor `libmbd.API2`, both `ReadHeader` and `Read` return a nil trace
and the error whose message is `unknown mcell binary api version ` followed by exactly
these 18 bytes, and neither calls a header or data routine. -/
theorem unknown_version_rejected (env : Env) (filename : GoString) (r : Reader)
    (hopen : env.osOpen filename = Except.ok r) (hlen : 18 ≤ r.data.length)
    (h1 : r.data.take 18 ≠ env.API1) (h2 : r.data.take 18 ≠ env.API2) :
    ReadHeader env filename =
      { data := none,
        err := some (GoError.Errorf
          (ascii "unknown mcell binary api version " ++ r.data.take 18)),
        file := some (afterTag r), calls := [] } ∧
    Read env filename =
      { data := none,
        err := some (GoError.Errorf
          (ascii "unknown mcell binary api version " ++ r.data.take 18)),
        file := some (afterTag r), calls := [] } := by
  have hv := env.versionOf_eq_none (r.data.take 18) h1 h2
  exact ⟨ReadHeader_unknown env filename r hopen hlen hv,
    Read_unknown env filename r hopen hlen hv⟩

/-- Witness for C1: the stream `MCELL_BINARY_API_9` followed by the byte 7. -/
theorem unknown_version_rejected_witness :
    ReadHeader (demoEnv ⟨ascii "MCELL_BINARY_API_9" ++ [7], GoError.EOF⟩) (ascii "a.bin") =
      { data := none,
        err := some (GoError.Errorf
          (ascii "unknown mcell binary api version MCELL_BINARY_API_9")),
        file := some ⟨[7], GoError.EOF⟩, calls := [] } ∧
    Read (demoEnv ⟨ascii "MCELL_BINARY_API_9" ++ [7], GoError.EOF⟩) (ascii "a.bin") =
      { data := none,
        err := some (GoError.Errorf
          (ascii "unknown mcell binary api version MCELL_BINARY_API_9")),
        file := some ⟨[7], GoError.EOF⟩, calls := [] } :=
  unknown_version_rejected (demoEnv ⟨ascii "MCELL_BINARY_API_9" ++ [7], GoError.EOF⟩)
    (ascii "a.bin") ⟨ascii "MCELL_BINARY_API_9" ++ [7], GoError.EOF⟩ rfl
    (by decide) (by decide) (by decide)

/-! ## Streams shorter than the tag -/

/-- C2, as stated, fails: on the empty stream `ReadHeader` returns `io.EOF`, on the
one-byte stream it returns `io.ErrUnexpectedEOF`, and the two errors differ. -/
theorem ReadHeader_empty_vs_truncated :
    (ReadHeader (demoEnv ⟨[], GoError.EOF⟩) (ascii "a.bin")).err = some GoError.EOF ∧
    (ReadHeader (demoEnv ⟨[77], GoError.EOF⟩) (ascii "a.bin")).err
      = some GoError.ErrUnexpectedEOF ∧
    (ReadHeader (demoEnv ⟨[], GoError.EOF⟩) (ascii "a.bin")).err
      ≠ (ReadHeader (demoEnv ⟨[77], GoError.EOF⟩) (ascii "a.bin")).err := by
  decide

/-- C2, amended. For every stream of fewer than 18 bytes that ends cleanly, `ReadHeader`
returns a nil trace, calls no routine, and fails with `io.EOF` when the stream is empty
and with `io.ErrUnexpectedEOF` when it holds 1 to 17 bytes, never with another error. -/
theorem ReadHeader_short_stream (env : Env) (filename : GoString) (r : Reader)
    (hopen : env.osOpen filename = Except.ok r) (hlen : r.data.length < 18)
    (hclean : r.term = GoError.EOF) :
    ReadHeader env filename =
      { data := none,
        err := some (if r.data = [] then GoError.EOF else GoError.ErrUnexpectedEOF),
        file := some ⟨[], GoError.EOF⟩, calls := [] } :=
  ReadHeader_short_clean env filename r hopen hlen hclean

/-- Witness for the amended C2: the 17-byte stream `MCELL_BINARY_API_`. -/
theorem ReadHeader_short_stream_witness :
    ReadHeader (demoEnv ⟨ascii "MCELL_BINARY_API_", GoError.EOF⟩) (ascii "a.bin") =
      { data := none, err := some GoError.ErrUnexpectedEOF,
        file := some ⟨[], GoError.EOF⟩, calls := [] } :=
  ReadHeader_short_stream (demoEnv ⟨ascii "MCELL_BINARY_API_", GoError.EOF⟩) (ascii "a.bin")
    ⟨ascii "MCELL_BINARY_API_", GoError.EOF⟩ rfl (by decide) rfl

/-! ## Read errors while reading the tag -/

/-- C3, as stated, fails for `Read`: a stream whose reader reports the error `other 5`
after two bytes and a stream that simply ends after the same two bytes give the same
error, `Failed to parse API tag of file a.bin  - file empty??`. -/
theorem Read_io_error_same_as_truncated :
    (Read (demoEnv ⟨[77, 67], GoError.other 5⟩) (ascii "a.bin")).err
      = (Read (demoEnv ⟨[77, 67], GoError.EOF⟩) (ascii "a.bin")).err ∧
    (Read (demoEnv ⟨[77, 67], GoError.other 5⟩) (ascii "a.bin")).err
      = some (GoError.Errorf
          (ascii "Failed to parse API tag of file a.bin  - file empty??")) := by
  decide

/-- C3, amended. When the reader reports an error other than `io.EOF` before 18 bytes
are read, `ReadHeader` returns that very error with a nil trace, and it differs from the
error `ReadHeader` returns for any stream that simply ends before 18 bytes provided it is
not `io.ErrUnexpectedEOF`; `Read` returns the error `Failed to parse API tag of file
<filename>  - file empty??`, which is the error it also returns for a stream that simply
ends before 18 bytes. -/
theorem tag_read_io_error (env env' : Env) (filename : GoString) (r r' : Reader)
    (hopen : env.osOpen filename = Except.ok r) (hlen : r.data.length < 18)
    (hio : r.term ≠ GoError.EOF)
    (hopen' : env'.osOpen filename = Except.ok r') (hlen' : r'.data.length < 18)
    (hclean : r'.term = GoError.EOF) :
    (ReadHeader env filename).err = some r.term ∧
    (ReadHeader env filename).data = none ∧
    (r.term ≠ GoError.ErrUnexpectedEOF →
      (ReadHeader env filename).err ≠ (ReadHeader env' filename).err) ∧
    (Read env filename).err = some (GoError.Errorf (failedTagMsg filename)) ∧
    (Read env filename).data = none ∧
    (Read env filename).err = (Read env' filename).err := by
  rw [ReadHeader_short env filename r hopen hlen,
    ReadHeader_short_clean env' filename r' hopen' hlen' hclean,
    Read_short env filename r hopen hlen, Read_short env' filename r' hopen' hlen']
  simp only [hio, and_false, if_false, true_and, and_true]
  intro hne
  by_cases hd : r'.data = []
  · simpa [hd] using hio
  · simpa [hd] using hne

/-- Witness for the amended C3: the reader fails with `other 5` after two bytes; the
stream compared with ends after one byte. -/
theorem tag_read_io_error_witness :
    (ReadHeader (demoEnv ⟨[77, 67], GoError.other 5⟩) (ascii "a.bin")).err
      = some (GoError.other 5) ∧
    (ReadHeader (demoEnv ⟨[77, 67], GoError.other 5⟩) (ascii "a.bin")).err
      ≠ (ReadHeader (demoEnv ⟨[77], GoError.EOF⟩) (ascii "a.bin")).err ∧
    (Read (demoEnv ⟨[77, 67], GoError.other 5⟩) (ascii "a.bin")).err
      = (Read (demoEnv ⟨[77], GoError.EOF⟩) (ascii "a.bin")).err :=
  have h := tag_read_io_error (demoEnv ⟨[77, 67], GoError.other 5⟩)
    (demoEnv ⟨[77], GoError.EOF⟩) (ascii "a.bin") ⟨[77, 67], GoError.other 5⟩
    ⟨[77], GoError.EOF⟩ rfl (by decide) (by decide) rfl (by decide) rfl
  ⟨h.1, h.2.2.1 (by decide), h.2.2.2.2.2⟩

/-! ## Header only -/

theorem ReadHeader_calls (env : Env) (filename : GoString) :
    (ReadHeader env filename).calls = [] ∨
    (ReadHeader env filename).calls = [Call.API1Header] ∨
    (ReadHeader env filename).calls = [Call.API2Header] := by
  cases hopen : env.osOpen filename with
  | error e => simp [ReadHeader_open_error env filename e hopen]
  | ok r =>
    by_cases hlen : 18 ≤ r.data.length
    · cases hv : env.versionOf (r.data.take 18) with
      | none => simp [ReadHeader_unknown env filename r hopen hlen hv]
      | some v =>
        rw [ReadHeader_version env filename r v hopen hlen hv]
        cases v <;> simp [DecodeResult.returned, Version.headerCall]
    · simp [ReadHeader_short env filename r hopen (Nat.lt_of_not_le hlen)]

/-- C5. `ReadHeader` never calls a data routine.  With the tag `libmbd.API1` (resp.
`libmbd.API2`) it returns what `parseAPI1.Header` (resp. `parseAPI2.Header`) returns on
the stream positioned after the tag and a fresh `MCellData` whose only set field is
`API = tag`: the same error, and the same trace whenever the error is nil (a nil trace
otherwise); it calls that routine and nothing else.  So the trace it returns has a nil
`buffer` whenever the header routines leave `buffer` as they received it. -/
theorem ReadHeader_header_only (env : Env) (filename : GoString) :
    Call.API1Data ∉ (ReadHeader env filename).calls ∧
    Call.API2Data ∉ (ReadHeader env filename).calls ∧
    (∀ r, env.osOpen filename = Except.ok r → 18 ≤ r.data.length →
      (r.data.take 18 = env.API1 →
        ReadHeader env filename =
          (env.API1Header (afterTag r) (some (freshData (r.data.take 18)))).returned
            [Call.API1Header]) ∧
      (r.data.take 18 ≠ env.API1 → r.data.take 18 = env.API2 →
        ReadHeader env filename =
          (env.API2Header (afterTag r) (some (freshData (r.data.take 18)))).returned
            [Call.API2Header])) ∧
    ((∀ rd x y, (env.API1Header rd (some x)).data = some y → y.buffer = x.buffer) →
      (∀ rd x y, (env.API2Header rd (some x)).data = some y → y.buffer = x.buffer) →
      ∀ d, (ReadHeader env filename).data = some d → d.buffer = none) := by
  have hcalls := ReadHeader_calls env filename
  have key : ∀ r, env.osOpen filename = Except.ok r → 18 ≤ r.data.length →
      (r.data.take 18 = env.API1 →
        ReadHeader env filename =
          (env.API1Header (afterTag r) (some (freshData (r.data.take 18)))).returned
            [Call.API1Header]) ∧
      (r.data.take 18 ≠ env.API1 → r.data.take 18 = env.API2 →
        ReadHeader env filename =
          (env.API2Header (afterTag r) (some (freshData (r.data.take 18)))).returned
            [Call.API2Header]) := by
    intro r hopen hlen
    constructor
    · intro h1
      exact ReadHeader_version env filename r Version.V1 hopen hlen
        (by unfold Env.versionOf; rw [if_pos h1])
    · intro h1 h2
      exact ReadHeader_version env filename r Version.V2 hopen hlen
        (by unfold Env.versionOf; rw [if_neg h1, if_pos h2])
  refine ⟨?_, ?_, key, ?_⟩
  · rcases hcalls with h | h | h <;> simp [h]
  · rcases hcalls with h | h | h <;> simp [h]
  · intro hb1 hb2 d hd
    cases hopen : env.osOpen filename with
    | error e => simp [ReadHeader_open_error env filename e hopen] at hd
    | ok r =>
      by_cases hlen : 18 ≤ r.data.length
      · by_cases h1 : r.data.take 18 = env.API1
        · rw [(key r hopen hlen).1 h1] at hd
          simp only [DecodeResult.returned] at hd
          split at hd
          · exact hb1 _ _ _ hd
          · cases hd
        · by_cases h2 : r.data.take 18 = env.API2
          · rw [(key r hopen hlen).2 h1 h2] at hd
            simp only [DecodeResult.returned] at hd
            split at hd
            · exact hb2 _ _ _ hd
            · cases hd
          · have hv : env.versionOf (r.data.take 18) = none := by
              simp [Env.versionOf, h1, h2]
            simp [ReadHeader_unknown env filename r hopen hlen hv] at hd
      · simp [ReadHeader_short env filename r hopen (Nat.lt_of_not_le hlen)] at hd

theorem demoHeader_keeps_buffer (rd : Reader) (x y : MCellData)
    (h : (demoHeader rd (some x)).data = some y) : y.buffer = x.buffer := by
  unfold demoHeader at h
  cases hd : rd.data with
  | nil => simp [hd] at h
  | cons b bs =>
    simp only [hd, Option.map_some', Option.some.injEq] at h
    rw [← h]

/-- Witness for C5: on the stream `MCELL_BINARY_API_2` followed by the bytes 5 and 9 the
result is the one of the header routine, and its `buffer` is nil. -/
theorem ReadHeader_header_only_witness :
    ReadHeader (demoEnv ⟨ascii "MCELL_BINARY_API_2" ++ [5, 9], GoError.EOF⟩) (ascii "a.bin")
      = { data := some { API := ascii "MCELL_BINARY_API_2", metadata := [5], buffer := none },
          err := none, file := some ⟨[9], GoError.EOF⟩, calls := [Call.API2Header] } ∧
    ∀ d, (ReadHeader (demoEnv ⟨ascii "MCELL_BINARY_API_2" ++ [5, 9], GoError.EOF⟩)
      (ascii "a.bin")).data = some d → d.buffer = none :=
  ⟨((ReadHeader_header_only
      (demoEnv ⟨ascii "MCELL_BINARY_API_2" ++ [5, 9], GoError.EOF⟩) (ascii "a.bin")).2.2.1
    ⟨ascii "MCELL_BINARY_API_2" ++ [5, 9], GoError.EOF⟩ rfl (by decide)).2
    (by decide) (by decide),
   (ReadHeader_header_only
      (demoEnv ⟨ascii "MCELL_BINARY_API_2" ++ [5, 9], GoError.EOF⟩) (ascii "a.bin")).2.2.2
    demoHeader_keeps_buffer demoHeader_keeps_buffer⟩

/-! ## Header, then data -/

/-- C6. With a supported tag, `Read` first calls the version's `Header` routine on the
stream after the tag.  If that fails, `Read` returns its error and a nil trace and the
`Data` routine is never called.  Otherwise `Read` calls the version's `Data` routine on
what the header routine left and returned; if that fails, `Read` returns its error and a
nil trace, else the trace of the data routine. -/
theorem Read_header_before_data (env : Env) (filename : GoString) (r : Reader) (v : Version)
    (hopen : env.osOpen filename = Except.ok r) (hlen : 18 ≤ r.data.length)
    (hv : env.versionOf (r.data.take 18) = some v) :
    (∀ e, (env.headerOf v (afterTag r) (some (freshData (r.data.take 18)))).err = some e →
      Read env filename =
        { data := none, err := some e,
          file := some (env.headerOf v (afterTag r)
            (some (freshData (r.data.take 18)))).rest,
          calls := [v.headerCall] }) ∧
    ((env.headerOf v (afterTag r) (some (freshData (r.data.take 18)))).err = none →
      ∀ e, (env.dataOf v
          (env.headerOf v (afterTag r) (some (freshData (r.data.take 18)))).rest
          (env.headerOf v (afterTag r) (some (freshData (r.data.take 18)))).data).err
          = some e →
        Read env filename =
          { data := none, err := some e,
            file := some (env.dataOf v
              (env.headerOf v (afterTag r) (some (freshData (r.data.take 18)))).rest
              (env.headerOf v (afterTag r) (some (freshData (r.data.take 18)))).data).rest,
            calls := [v.headerCall, v.dataCall] }) ∧
    ((env.headerOf v (afterTag r) (some (freshData (r.data.take 18)))).err = none →
      (env.dataOf v
          (env.headerOf v (afterTag r) (some (freshData (r.data.take 18)))).rest
          (env.headerOf v (afterTag r) (some (freshData (r.data.take 18)))).data).err
          = none →
        Read env filename =
          { data := (env.dataOf v
              (env.headerOf v (afterTag r) (some (freshData (r.data.take 18)))).rest
              (env.headerOf v (afterTag r) (some (freshData (r.data.take 18)))).data).data,
            err := none,
            file := some (env.dataOf v
              (env.headerOf v (afterTag r) (some (freshData (r.data.take 18)))).rest
              (env.headerOf v (afterTag r) (some (freshData (r.data.take 18)))).data).rest,
            calls := [v.headerCall, v.dataCall] }) := by
  have hR := Read_version env filename r v hopen hlen hv
  refine ⟨?_, ?_, ?_⟩
  · intro e he
    rw [hR, he]
  · intro hh e he
    rw [hR, hh]
    simp [DecodeResult.returned, he]
  · intro hh hd
    rw [hR, hh]
    simp [DecodeResult.returned, hd]

/-- Witness for C6: the stream is the tag `MCELL_BINARY_API_1` and nothing else, so the
header routine fails and the data routine is not called. -/
theorem Read_header_before_data_witness :
    Read (demoEnv ⟨ascii "MCELL_BINARY_API_1", GoError.EOF⟩) (ascii "a.bin")
      = { data := none, err := some GoError.EOF, file := some ⟨[], GoError.EOF⟩,
          calls := [Call.API1Header] } :=
  (Read_header_before_data (demoEnv ⟨ascii "MCELL_BINARY_API_1", GoError.EOF⟩)
    (ascii "a.bin") ⟨ascii "MCELL_BINARY_API_1", GoError.EOF⟩ Version.V1 rfl (by decide)
    (by decide)).1 GoError.EOF (by decide)

/-! ## `Read` refines `ReadHeader` -/

/-- C7. `Read` fails (with a nil trace) whenever `ReadHeader` fails, so a successful
`Read` implies a successful `ReadHeader`; the routines `ReadHeader` calls are the first
ones `Read` calls; and whenever `ReadHeader` succeeds, with trace `h` and the stream left
at `rest`, both have selected the same version `v` from the tag and `Read` returns what
the `Data` routine of `v` returns on `rest` and `h`: the same error, and the same trace
whenever the error is nil (a nil trace otherwise). -/
theorem Read_refines_ReadHeader (env : Env) (filename : GoString) :
    ((ReadHeader env filename).err ≠ none →
      (Read env filename).err ≠ none ∧ (Read env filename).data = none) ∧
    ((Read env filename).err = none → (ReadHeader env filename).err = none) ∧
    (ReadHeader env filename).calls <+: (Read env filename).calls ∧
    ((ReadHeader env filename).err = none →
      ∃ r v rest, env.osOpen filename = Except.ok r ∧ 18 ≤ r.data.length ∧
        env.versionOf (r.data.take 18) = some v ∧
        (ReadHeader env filename).file = some rest ∧
        (ReadHeader env filename).calls = [v.headerCall] ∧
        Read env filename =
          (env.dataOf v rest (ReadHeader env filename).data).returned
            [v.headerCall, v.dataCall]) := by
  cases hopen : env.osOpen filename with
  | error e =>
    rw [ReadHeader_open_error env filename e hopen, Read_open_error env filename e hopen]
    simp
  | ok r =>
    by_cases hlen : 18 ≤ r.data.length
    · cases hv : env.versionOf (r.data.take 18) with
      | none =>
        rw [ReadHeader_unknown env filename r hopen hlen hv,
          Read_unknown env filename r hopen hlen hv]
        simp
      | some v =>
        rw [ReadHeader_version env filename r v hopen hlen hv,
          Read_version env filename r v hopen hlen hv]
        cases hh : (env.headerOf v (afterTag r) (some (freshData (r.data.take 18)))).err with
        | some e => simp [DecodeResult.returned, hh]
        | none =>
          refine ⟨?_, ?_, ?_, ?_⟩
          · intro h
            simp [DecodeResult.returned, hh] at h
          · intro _
            simp [DecodeResult.returned, hh]
          · simp only [DecodeResult.returned]
            exact ⟨[v.dataCall], rfl⟩
          · intro _
            refine ⟨r, v, _, rfl, hlen, hv, rfl, rfl, ?_⟩
            simp [DecodeResult.returned, hh]
    · have hlt := Nat.lt_of_not_le hlen
      rw [ReadHeader_short env filename r hopen hlt, Read_short env filename r hopen hlt]
      simp

/-- Witness for C7: on the stream `MCELL_BINARY_API_9` the header fails and so does
`Read`; on the stream `MCELL_BINARY_API_2` followed by 5, 9, 9 the header succeeds and
`Read` is the data routine run on what `ReadHeader` returned. -/
theorem Read_refines_ReadHeader_witness :
    ((Read (demoEnv ⟨ascii "MCELL_BINARY_API_9", GoError.EOF⟩) (ascii "a.bin")).err ≠ none ∧
      (Read (demoEnv ⟨ascii "MCELL_BINARY_API_9", GoError.EOF⟩) (ascii "a.bin")).data
        = none) ∧
    (ReadHeader (demoEnv ⟨ascii "MCELL_BINARY_API_2" ++ [5, 9, 9], GoError.EOF⟩)
      (ascii "a.bin")).err = none ∧
    Read (demoEnv ⟨ascii "MCELL_BINARY_API_2" ++ [5, 9, 9], GoError.EOF⟩) (ascii "a.bin")
      = { data := some { API := ascii "MCELL_BINARY_API_2", metadata := [5],
                         buffer := some [9, 9] },
          err := none, file := some ⟨[], GoError.EOF⟩,
          calls := [Call.API2Header, Call.API2Data] } :=
  ⟨(Read_refines_ReadHeader (demoEnv ⟨ascii "MCELL_BINARY_API_9", GoError.EOF⟩)
      (ascii "a.bin")).1 (by decide),
    (Read_refines_ReadHeader (demoEnv ⟨ascii "MCELL_BINARY_API_2" ++ [5, 9, 9], GoError.EOF⟩)
      (ascii "a.bin")).2.1 (by decide),
    by decide⟩

/-! ## Truncated tag against unsupported tag -/

/-- C8. Let `s` be any stream from which fewer than 18 bytes can be read (it ends, or its
reader fails, before 18 bytes) and `u` a stream whose first 18 bytes are neither
`libmbd.API1` nor `libmbd.API2`.  For `Read`, with no further condition, the error
returned for `s` differs from the error returned for `u`, the error for `s` is never an
unknown-version error and the error for `u` is never the failed-to-parse-tag error.  For
`ReadHeader` the error for `u` is never `io.EOF` nor `io.ErrUnexpectedEOF`; and as long
as the error the reader of `s` itself reports is not an unknown-version error (it is
`io.EOF`, `io.ErrUnexpectedEOF` or an error of `os` or `bzip2`, none of which is built by
`fmt.Errorf`), the error for `s` differs from the error for `u`, is never an
unknown-version error, and the error for `u` is not the one the reader of `s` reports. -/
theorem short_vs_unknown_distinct (env env' : Env) (f f' : GoString) (s u : Reader)
    (hs : env.osOpen f = Except.ok s) (hslen : s.data.length < 18)
    (hu : env'.osOpen f' = Except.ok u) (hulen : 18 ≤ u.data.length)
    (h1 : u.data.take 18 ≠ env'.API1) (h2 : u.data.take 18 ≠ env'.API2) :
    (Read env f).err ≠ (Read env' f').err ∧
    (∀ t, (Read env f).err ≠ some (GoError.Errorf (unknownVersionMsg t))) ∧
    (∀ g, (Read env' f').err ≠ some (GoError.Errorf (failedTagMsg g))) ∧
    (ReadHeader env' f').err ≠ some GoError.EOF ∧
    (ReadHeader env' f').err ≠ some GoError.ErrUnexpectedEOF ∧
    ((∀ t, s.term ≠ GoError.Errorf (unknownVersionMsg t)) →
      (ReadHeader env f).err ≠ (ReadHeader env' f').err ∧
      (∀ t, (ReadHeader env f).err ≠ some (GoError.Errorf (unknownVersionMsg t))) ∧
      (ReadHeader env' f').err ≠ some s.term) := by
  have hunk := env'.versionOf_eq_none (u.data.take 18) h1 h2
  rw [ReadHeader_short env f s hs hslen, Read_short env f s hs hslen,
    ReadHeader_unknown env' f' u hu hulen hunk, Read_unknown env' f' u hu hulen hunk]
  have hne := failedTagMsg_ne_unknownVersionMsg
  refine ⟨?_, ?_, ?_, ?_, ?_, ?_⟩
  · simpa using hne f (u.data.take 18)
  · intro t
    simpa using hne f t
  · intro g
    simpa using fun h => hne g (u.data.take 18) h.symm
  · simp
  · simp
  · intro hterm
    have key : ∀ t, (if 0 < s.data.length ∧ s.term = GoError.EOF
        then GoError.ErrUnexpectedEOF else s.term) ≠ GoError.Errorf (unknownVersionMsg t) := by
      intro t
      by_cases hc : 0 < s.data.length ∧ s.term = GoError.EOF
      · rw [if_pos hc]
        intro h
        cases h
      · rw [if_neg hc]
        exact hterm t
    refine ⟨?_, ?_, ?_⟩
    · intro h
      exact key (u.data.take 18) (Option.some.inj h)
    · intro t h
      exact key t (Option.some.inj h)
    · intro h
      exact hterm (u.data.take 18) (Option.some.inj h).symm

/-- Witness for C8: the reader that reports `io.ErrUnexpectedEOF` before any byte (what
`bzip2` reports on a file of zero bytes) against the stream `MCELL_BINARY_API_9`. -/
theorem short_vs_unknown_distinct_witness :
    (Read (demoEnv ⟨[], GoError.ErrUnexpectedEOF⟩) (ascii "a.bin")).err
      ≠ (Read (demoEnv ⟨ascii "MCELL_BINARY_API_9", GoError.EOF⟩) (ascii "b.bin")).err ∧
    (ReadHeader (demoEnv ⟨[], GoError.ErrUnexpectedEOF⟩) (ascii "a.bin")).err
      ≠ (ReadHeader (demoEnv ⟨ascii "MCELL_BINARY_API_9", GoError.EOF⟩) (ascii "b.bin")).err :=
  have h := short_vs_unknown_distinct (demoEnv ⟨[], GoError.ErrUnexpectedEOF⟩)
    (demoEnv ⟨ascii "MCELL_BINARY_API_9", GoError.EOF⟩) (ascii "a.bin") (ascii "b.bin")
    ⟨[], GoError.ErrUnexpectedEOF⟩ ⟨ascii "MCELL_BINARY_API_9", GoError.EOF⟩
    rfl (by decide) rfl (by decide) (by decide) (by decide)
  ⟨h.1, (h.2.2.2.2.2 (fun _ hh => GoError.noConfusion hh)).1⟩

/-! ## The configured model of the mouse analyzer -/

namespace MouseAnalyzer

theorem init_eq (SytSite : Nat) :
    init SytSite Globals.initial = some
      { info := { Name := ascii "mouseAnalyzer", NumThreads := 1 },
        model := { model with CaSensors :=
          [ { Sites := [8, 9, 29, 30, 31], SiteType := SytSite },
            { Sites := [7, 32, 33, 34, 35], SiteType := SytSite },
            { Sites := [3, 6, 36, 37, 38], SiteType := SytSite },
            { Sites := [17, 39, 40, 41, 42], SiteType := SytSite },
            { Sites := [15, 16, 43, 44, 45], SiteType := SytSite },
            { Sites := [14, 46, 47, 48, 49], SiteType := SytSite },
            { Sites := [4, 12, 24, 50, 51], SiteType := SytSite },
            { Sites := [10, 25, 26, 27, 28], SiteType := SytSite } ] },
        fusionModel := { fusionModel with NumActiveSites := 0 } } := by
  rfl

/-- C9. Whatever the value of `rel.SytSite`, `init` runs without a panic (every indexed
assignment is in bounds) and leaves `model.CaSensors` with exactly
`NumSyt + NumY = 8` entries; no entry is the zero-value sensor, each has a non-empty list
of sites and the site type `rel.SytSite`; every site index is non-negative; and no site
index occurs twice, neither within a sensor nor in two distinct sensors. -/
theorem init_CaSensors (SytSite : Nat) :
    ∃ g, init SytSite Globals.initial = some g ∧
      g.model.CaSensors.length = 8 ∧
      (g.model.CaSensors.length : Int) = g.fusionModel.NumSyt + g.fusionModel.NumY ∧
      (∀ c ∈ g.model.CaSensors, c ≠ CaSensor.zero ∧ c.Sites ≠ [] ∧ c.SiteType = SytSite) ∧
      (∀ x ∈ allSites g.model.CaSensors, 0 ≤ x) ∧
      (allSites g.model.CaSensors).Nodup ∧
      g.model.CaSensors.Pairwise (fun a b => List.Disjoint a.Sites b.Sites) ∧
      (∀ c ∈ g.model.CaSensors, c.Sites.Nodup) := by
  refine ⟨_, init_eq SytSite, rfl, rfl, ?_, ?_, ?_, ?_, ?_⟩
  · simp [CaSensor.zero]
  · simp [allSites]
  · simp [allSites]
  · simp [List.Disjoint]
  · simp

/-- C10. `model.VesicleIDs` has no duplicate and is exactly the 12 identifiers `a_b` for
`a` from 1 to 6 and `b` from 1 to 2, in ascending order of `(a, b)`; `init` leaves it
unchanged. -/
theorem VesicleIDs_spec :
    model.VesicleIDs.Nodup ∧
    model.VesicleIDs.length = 12 ∧
    model.VesicleIDs = vesicleIDsOf 6 2 ∧
    model.VesicleIDs =
      [ascii "1_1", ascii "1_2", ascii "2_1", ascii "2_2", ascii "3_1", ascii "3_2",
       ascii "4_1", ascii "4_2", ascii "5_1", ascii "5_2", ascii "6_1", ascii "6_2"] ∧
    ∀ SytSite : Nat,
      (init SytSite Globals.initial).map (fun g => g.model.VesicleIDs)
        = some (vesicleIDsOf 6 2) := by
  refine ⟨by decide, by decide, by decide, rfl, ?_⟩
  intro SytSite
  rw [init_eq SytSite]
  exact congrArg some (by decide : model.VesicleIDs = vesicleIDsOf 6 2)

end MouseAnalyzer

end Mbdr
